import Mathlib

/-!
Shallow embedding of the order-workflow, access-gate and password-recovery
code of the storefront repository (src/shared/schema.ts, src/server/storage.ts
and the Express route module), together with theorems settling the frozen
claims about them.

Modelling conventions:
* The relational store is a record of lists of rows; row ids generated by the
  database (`gen_random_uuid()`) are passed in as explicit parameters.
* `decimal` columns travel as strings through the TypeScript code (drizzle maps
  them to `string`), so prices and totals are `String` here as well.
* `timestamp` values are `Nat` milliseconds (matching `Date.now()` arithmetic).
* Nullable columns are `Option`; `insertOrderSchema` omits `id`, `userId`,
  `createdAt` and leaves `status` optional (drizzle-zod makes defaulted columns
  optional), which the embedding reflects in `InsertOrder`.
-/

namespace Shop

/-- A row of the `users` table (schema.ts). -/
structure User where
  id : String
  email : String
  password : String
  name : String
  role : String
  createdAt : Nat
  deriving Repr, DecidableEq

/-- A row of the `products` table (schema.ts); `stock` is a nullable integer. -/
structure Product where
  id : String
  name : String
  description : String
  price : String
  imageUrl : String
  type : String
  ageRange : String
  category : String
  stock : Option Int
  isActive : Bool
  deriving Repr, DecidableEq

/-- A row of the `orders` table (schema.ts); `userId` is nullable. -/
structure Order where
  id : String
  userId : Option String
  total : String
  status : String
  customerName : String
  customerEmail : String
  customerPhone : String
  shippingAddress : String
  createdAt : Nat
  deriving Repr, DecidableEq

/-- A row of the `order_items` table (schema.ts). -/
structure OrderItem where
  id : String
  orderId : String
  productId : String
  quantity : Int
  price : String
  deriving Repr, DecidableEq

/-- A row of the `password_reset_tokens` table (schema.ts). -/
structure PasswordResetToken where
  id : String
  userId : String
  token : String
  expiresAt : Nat
  createdAt : Nat
  deriving Repr, DecidableEq

/-- The relational store backing `DatabaseStorage`. -/
structure Store where
  users : List User
  products : List Product
  orders : List Order
  orderItems : List OrderItem
  tokens : List PasswordResetToken
  deriving Repr, DecidableEq

/-- `insertOrderSchema` payload: `id`, `userId`, `createdAt` omitted; `status`
optional because the column has a database default. -/
structure InsertOrder where
  total : String
  status : Option String
  customerName : String
  customerEmail : String
  customerPhone : String
  shippingAddress : String
  deriving Repr, DecidableEq

/-- `insertOrderItemSchema` payload: only `id` omitted, so the caller supplies
`orderId` (overwritten by `createOrder`), `productId`, `quantity`, `price`. -/
structure InsertOrderItem where
  orderId : String
  productId : String
  quantity : Int
  price : String
  deriving Repr, DecidableEq

/-- An order item joined with its product, as produced by the item loop of
`createOrder` and by the `innerJoin` queries. -/
structure OrderItemWithProduct where
  item : OrderItem
  product : Product
  deriving Repr, DecidableEq

/-- `OrderWithItems` (schema.ts): an order together with its joined items. -/
structure OrderWithItems where
  order : Order
  items : List OrderItemWithProduct
  deriving Repr, DecidableEq

/-- `DatabaseStorage.getProduct`: first product row with the given id. -/
def getProduct (s : Store) (id : String) : Option Product :=
  s.products.find? (fun p => p.id == id)

/-- `DatabaseStorage.getUser`: first user row with the given id. -/
def getUser (s : Store) (id : String) : Option User :=
  s.users.find? (fun u => u.id == id)

/-- The row function of the stock `update ... where eq(products.id, ...)`:
replace the stock of the rows with the matching id. -/
def decProd (targetId : String) (newStock : Int) (p : Product) : Product :=
  if p.id == targetId then { p with stock := some newStock } else p

/-- The stock update inside the item loop of `createOrder` (storage.ts 203-209):
if the fetched product is physical with a non-null stock, set its stock to the
fetched value minus the requested quantity. -/
def stockAfterItem (s : Store) (product : Product) (qty : Int) : Store :=
  if product.type = "physical" then
    match product.stock with
    | some st =>
      { s with products := s.products.map (decProd product.id (st - qty)) }
    | none => s
  else s

/-- The item loop of `createOrder` (storage.ts 185-211): for each requested
line, insert the order-item row (with the freshly generated id and the new
order's id), then look the product up; if found, emit the joined item and run
the stock update, otherwise silently continue. Returns the emitted joined
items and the final store. -/
def processItems (oid : String) :
    List InsertOrderItem → List String → Store → List OrderItemWithProduct × Store
  | [], _, s => ([], s)
  | item :: rest, ids, s =>
    let orderItem : OrderItem :=
      { id := ids.headD "", orderId := oid, productId := item.productId,
        quantity := item.quantity, price := item.price }
    let s1 : Store := { s with orderItems := s.orderItems ++ [orderItem] }
    match getProduct s1 item.productId with
    | some product =>
      let s2 : Store := stockAfterItem s1 product item.quantity
      let res := processItems oid rest ids.tail s2
      (⟨orderItem, product⟩ :: res.1, res.2)
    | none => processItems oid rest ids.tail s1

/-- `DatabaseStorage.createOrder` (storage.ts 179-217): insert the order header
(no `userId` in `InsertOrder`, so the nullable column stays null; `status`
falls back to the column default `"pending"`), then run the item loop, and
return the order with the emitted items. -/
def createOrder (s : Store) (order : InsertOrder) (items : List InsertOrderItem)
    (newOrderId : String) (itemIds : List String) (now : Nat) :
    OrderWithItems × Store :=
  let newOrder : Order :=
    { id := newOrderId, userId := none, total := order.total,
      status := order.status.getD "pending",
      customerName := order.customerName, customerEmail := order.customerEmail,
      customerPhone := order.customerPhone,
      shippingAddress := order.shippingAddress, createdAt := now }
  let s1 : Store := { s with orders := s.orders ++ [newOrder] }
  let res := processItems newOrder.id items itemIds s1
  (⟨newOrder, res.1⟩, res.2)

/-- `DatabaseStorage.updateOrderStatus` (storage.ts 219-226): set the status of
the row with the given id (any string) and return the updated row, or return
nothing and leave the store unchanged when no row matches. -/
def updateOrderStatus (s : Store) (id status : String) : Option Order × Store :=
  match s.orders.find? (fun o => o.id == id) with
  | none => (none, s)
  | some _ =>
    let orders' := s.orders.map (fun o => if o.id == id then { o with status := status } else o)
    (orders'.find? (fun o => o.id == id), { s with orders := orders' })

/-- `DatabaseStorage.getUserOrders` (storage.ts 152-177): the orders whose
`userId` equals the given id, each joined (inner join) with its items'
products. -/
def getUserOrders (s : Store) (userId : String) : List OrderWithItems :=
  (s.orders.filter (fun o => o.userId == some userId)).map (fun o =>
    { order := o,
      items := (s.orderItems.filter (fun it => it.orderId == o.id)).filterMap
        (fun it => (getProduct s it.productId).map (fun p => ⟨it, p⟩)) })

/-- `DatabaseStorage.createPasswordRecoveryToken` (storage.ts 259-266): insert
a token row expiring one hour (3 600 000 ms) after `now`. -/
def createPasswordRecoveryToken (s : Store) (userId token newId : String)
    (now : Nat) : Store :=
  { s with tokens := s.tokens ++
      [{ id := newId, userId := userId, token := token,
         expiresAt := now + 60 * 60 * 1000, createdAt := now }] }

/-- `DatabaseStorage.deletePasswordRecoveryToken` (storage.ts 287-289): delete
every token row carrying the given token string. -/
def deletePasswordRecoveryToken (s : Store) (token : String) : Store :=
  { s with tokens := s.tokens.filter (fun t => !(t.token == token)) }

/-- `DatabaseStorage.validatePasswordRecoveryToken` (storage.ts 268-285): look
the token up; absent → `none`; expired (`expiresAt < now`) → delete it and
`none`; otherwise return the owning user id, store untouched. -/
def validatePasswordRecoveryToken (s : Store) (token : String) (now : Nat) :
    Option String × Store :=
  match s.tokens.find? (fun t => t.token == token) with
  | none => (none, s)
  | some resetToken =>
    if resetToken.expiresAt < now then
      (none, deletePasswordRecoveryToken s token)
    else
      (some resetToken.userId, s)

/-- `DatabaseStorage.updateUserPassword` (storage.ts 255-257): set the password
of every user row with the given id. -/
def updateUserPassword (s : Store) (userId newPassword : String) : Store :=
  { s with users := s.users.map (fun u =>
      if u.id == userId then { u with password := newPassword } else u) }

/-- The `POST /api/auth/reset-password` handler (route module): first the zod
parse requires `newPassword` of at least 6 characters, answering 400 (`false`
here) with the store untouched otherwise; then validate the token; on failure
answer 400 leaving the store as the validation left it; on success update the
user's password, delete the token and answer 200 (`true`). -/
def resetPassword (s : Store) (token newPassword : String) (now : Nat) :
    Bool × Store :=
  if newPassword.length < 6 then (false, s)
  else
    match validatePasswordRecoveryToken s token now with
    | (none, s1) => (false, s1)
    | (some userId, s1) =>
      let s2 := updateUserPassword s1 userId newPassword
      let s3 := deletePasswordRecoveryToken s2 token
      (true, s3)

/-- Outcome of `authenticateAdmin`: the resolved admin user, or the thrown
error message. -/
inductive AuthResult where
  | ok (user : User)
  | err (message : String)
  deriving Repr, DecidableEq

/-- JavaScript `String.prototype.startsWith`: the needle's characters are a
prefix of the subject's characters. -/
def strStartsWith (s pre : String) : Bool :=
  pre.data.isPrefixOf s.data

/-- The `authenticateAdmin` helper of the route module: reject a missing or
non-`Bearer` header, then a token without the `mock_token_` prefix, then an
unresolvable user id, then a non-admin role; otherwise return the user. It
reads the store and returns no new store (no mutation). `h.drop 7` is
`substring(7)` after the `Bearer ` check and `token.drop 11` is
`replace("mock_token_", "")` after the prefix check (the first and only
occurrence at that point is the prefix itself). -/
def authenticateAdmin (s : Store) (authHeader : Option String) : AuthResult :=
  match authHeader with
  | none => .err "No autorizado"
  | some h =>
    if strStartsWith h "Bearer " = false then .err "No autorizado"
    else
      let token := h.drop 7
      if strStartsWith token "mock_token_" = false then .err "Token inválido"
      else
        let userId := token.drop 11
        match getUser s userId with
        | none => .err "Usuario no encontrado"
        | some user =>
          if user.role = "admin" then .ok user else .err "Acceso denegado"

/-- The error-to-HTTP-status mapping repeated in every privileged route's
catch block: 401 for "No autorizado"/"Token inválido", 403 for "Acceso
denegado", 500 otherwise. -/
def errStatus (message : String) : Nat :=
  if message = "No autorizado" ∨ message = "Token inválido" then 401
  else if message = "Acceso denegado" then 403
  else 500

/-! Statement vocabulary: quantities the claims speak about. -/

/-- Total quantity requested for a given product id across the lines of a
create-order request. -/
def totalQty : List InsertOrderItem → String → Int
  | [], _ => 0
  | item :: rest, pid =>
    (if item.productId = pid then item.quantity else 0) + totalQty rest pid

/-- "Sufficient stock" for a product id of a request: if the id resolves to a
physical product with a numeric stock, the total requested quantity fits in
that stock; vacuous otherwise. -/
def stockOK (s : Store) (items : List InsertOrderItem) (pid : String) : Bool :=
  match getProduct s pid with
  | some prod =>
    if prod.type = "physical" then
      match prod.stock with
      | some st => totalQty items pid ≤ st
      | none => true
    else true
  | none => true

/-- The net effect of `createOrder`'s stock updates on one product row:
physical products with a numeric stock lose the accumulated quantity, every
other product is untouched. -/
def applyDec (prod : Product) (q : Int) : Product :=
  if prod.type = "physical" then
    match prod.stock with
    | some st => { prod with stock := some (st - q) }
    | none => prod
  else prod

/-- The order-item rows the item loop inserts for a request: one row per
requested line, in order, carrying the caller-supplied quantity and price and
the generated ids. -/
def buildItems (oid : String) : List InsertOrderItem → List String → List OrderItem
  | [], _ => []
  | item :: rest, ids =>
    { id := ids.headD "", orderId := oid, productId := item.productId,
      quantity := item.quantity, price := item.price } :: buildItems oid rest ids.tail

/-! Helper lemmas. -/

theorem find_map_pres {α : Type} (g : α → α) (p : α → Bool)
    (h : ∀ a, p (g a) = p a) :
    ∀ l : List α, (l.map g).find? p = (l.find? p).map g := by
  intro l
  induction l with
  | nil => rfl
  | cons a l ih =>
    by_cases hp : p a = true
    · rw [List.map_cons, List.find?_cons_of_pos _ (by rw [h a]; exact hp),
        List.find?_cons_of_pos _ hp]
      rfl
    · rw [List.map_cons,
        List.find?_cons_of_neg _ (by rw [h a]; simpa using hp),
        List.find?_cons_of_neg _ (by simpa using hp), ih]

theorem decProd_id (t : String) (ns : Int) (p : Product) :
    (decProd t ns p).id = p.id := by
  unfold decProd; split <;> rfl

theorem getProduct_set_orderItems (s : Store) (l : List OrderItem) (pid : String) :
    getProduct { s with orderItems := l } pid = getProduct s pid := rfl

theorem getProduct_set_orders (s : Store) (l : List Order) (pid : String) :
    getProduct { s with orders := l } pid = getProduct s pid := rfl

theorem stockAfterItem_orders (s : Store) (product : Product) (qty : Int) :
    (stockAfterItem s product qty).orders = s.orders := by
  unfold stockAfterItem
  split
  · split <;> rfl
  · rfl

theorem stockAfterItem_orderItems (s : Store) (product : Product) (qty : Int) :
    (stockAfterItem s product qty).orderItems = s.orderItems := by
  unfold stockAfterItem
  split
  · split <;> rfl
  · rfl

theorem stockAfterItem_isSome (s : Store) (product : Product) (qty : Int)
    (pid : String) :
    (getProduct (stockAfterItem s product qty) pid).isSome =
      (getProduct s pid).isSome := by
  unfold stockAfterItem
  split
  · split
    · unfold getProduct
      rw [show ({ s with products := s.products.map _ } : Store).products
            = s.products.map _ from rfl]
      rw [find_map_pres _ _ (fun a => by rw [decProd_id])]
      cases List.find? (fun p => p.id == pid) s.products <;> rfl
    · rfl
  · rfl

theorem stockAfterItem_getProduct_other (s : Store) (product prod : Product)
    (qty : Int) (pid : String) (h : getProduct s pid = some prod)
    (hne : prod.id ≠ product.id) :
    getProduct (stockAfterItem s product qty) pid = some prod := by
  unfold stockAfterItem
  split
  · split
    · unfold getProduct at h ⊢
      rw [show ({ s with products := s.products.map _ } : Store).products
            = s.products.map _ from rfl]
      rw [find_map_pres _ _ (fun a => by rw [decProd_id]), h, Option.map_some']
      unfold decProd
      rw [if_neg (by simpa using hne)]
    · exact h
  · exact h

theorem stockAfterItem_getProduct_self (s : Store) (product : Product)
    (qty : Int) (h : getProduct s product.id = some product) :
    getProduct (stockAfterItem s product qty) product.id =
      some (applyDec product qty) := by
  unfold stockAfterItem applyDec
  split
  · split
    next st hst =>
      unfold getProduct at h ⊢
      rw [show ({ s with products := s.products.map _ } : Store).products
            = s.products.map _ from rfl]
      rw [find_map_pres _ _ (fun a => by rw [decProd_id]), h, Option.map_some']
      unfold decProd
      rw [if_pos (by simp)]
    next hst => exact h
  · exact h

theorem stockAfterItem_set_orderItems (s : Store) (product : Product)
    (qty : Int) (l : List OrderItem) :
    stockAfterItem { s with orderItems := l } product qty =
      { stockAfterItem s product qty with orderItems := l } := by
  unfold stockAfterItem
  split
  · split <;> rfl
  · rfl

theorem applyDec_zero (prod : Product) : applyDec prod 0 = prod := by
  obtain ⟨i, n, d, pr, im, ty, ar, ca, st, ia⟩ := prod
  unfold applyDec
  dsimp only
  split
  · cases st <;> simp
  · rfl

theorem applyDec_add (prod : Product) (a b : Int) :
    applyDec (applyDec prod a) b = applyDec prod (a + b) := by
  obtain ⟨i, n, d, pr, im, ty, ar, ca, st, ia⟩ := prod
  by_cases hty : ty = "physical"
  · cases st with
    | none => simp [applyDec, hty]
    | some v => simp [applyDec, hty, Int.sub_sub]
  · simp [applyDec, hty]

theorem processItems_orders (oid : String) (items : List InsertOrderItem) :
    ∀ (ids : List String) (s : Store),
      (processItems oid items ids s).2.orders = s.orders := by
  induction items with
  | nil => intro ids s; rfl
  | cons item rest ih =>
    intro ids s
    simp only [processItems]
    split
    · rw [ih, stockAfterItem_orders]
    · rw [ih]

theorem processItems_orderItems (oid : String) (items : List InsertOrderItem) :
    ∀ (ids : List String) (s : Store),
      (processItems oid items ids s).2.orderItems =
        s.orderItems ++ buildItems oid items ids := by
  induction items with
  | nil => intro ids s; simp [processItems, buildItems]
  | cons item rest ih =>
    intro ids s
    simp only [processItems]
    split
    · rw [ih, stockAfterItem_orderItems]
      simp [buildItems]
    · rw [ih]
      simp [buildItems]

theorem processItems_stock (oid : String) (items : List InsertOrderItem) :
    ∀ (ids : List String) (s : Store) (pid : String) (prod : Product),
      getProduct s pid = some prod →
      getProduct (processItems oid items ids s).2 pid =
        some (applyDec prod (totalQty items pid)) := by
  induction items with
  | nil =>
    intro ids s pid prod h
    simpa [processItems, totalQty, applyDec_zero] using h
  | cons item rest ih =>
    intro ids s pid prod h
    simp only [processItems]
    split
    next product heq =>
      rw [getProduct_set_orderItems] at heq
      by_cases hpid : item.productId = pid
      · subst hpid
        have hprodeq : product = prod := by
          rw [heq] at h; exact (Option.some.injEq _ _).mp h
        subst hprodeq
        have hid : product.id = item.productId := by
          simpa using List.find?_some heq
        simp only [totalQty, if_pos rfl]
        rw [← applyDec_add]
        refine ih _ _ _ _ ?_
        rw [stockAfterItem_set_orderItems, getProduct_set_orderItems, ← hid]
        exact stockAfterItem_getProduct_self s product item.quantity
          (by rw [hid]; exact heq)
      · have hprodid : prod.id = pid := by simpa using List.find?_some h
        have hpplid : product.id = item.productId := by
          simpa using List.find?_some heq
        simp only [totalQty, if_neg hpid, zero_add]
        refine ih _ _ _ _ ?_
        rw [stockAfterItem_set_orderItems, getProduct_set_orderItems]
        exact stockAfterItem_getProduct_other s product prod item.quantity pid h
          (by rw [hprodid, hpplid]; exact fun hc => hpid hc.symm)
    next heq =>
      rw [getProduct_set_orderItems] at heq
      have hpid : item.productId ≠ pid := by
        intro hc; rw [hc, h] at heq; exact Option.noConfusion heq
      simp only [totalQty, if_neg hpid, zero_add]
      refine ih _ _ _ _ ?_
      rw [getProduct_set_orderItems]
      exact h

theorem processItems_length (oid : String) (items : List InsertOrderItem) :
    ∀ (ids : List String) (s : Store),
      (processItems oid items ids s).1.length =
        (items.filter (fun i => (getProduct s i.productId).isSome)).length := by
  induction items with
  | nil => intro ids s; rfl
  | cons item rest ih =>
    intro ids s
    simp only [processItems]
    split
    next product heq =>
      rw [getProduct_set_orderItems] at heq
      have hsome : (getProduct s item.productId).isSome = true := by
        rw [heq]; rfl
      simp only [List.length_cons]
      rw [ih]
      simp only [stockAfterItem_isSome, getProduct_set_orderItems]
      rw [List.filter_cons, hsome]
      simp
    next heq =>
      rw [getProduct_set_orderItems] at heq
      have hnone : (getProduct s item.productId).isSome = false := by
        rw [heq]; rfl
      rw [ih]
      simp only [getProduct_set_orderItems]
      rw [List.filter_cons, hnone]
      simp

theorem processItems_resolvable (oid : String) (items : List InsertOrderItem) :
    ∀ (ids : List String) (s : Store) (e : OrderItemWithProduct),
      e ∈ (processItems oid items ids s).1 →
      (getProduct s e.item.productId).isSome = true := by
  induction items with
  | nil => intro ids s e he; simp [processItems] at he
  | cons item rest ih =>
    intro ids s e he
    simp only [processItems] at he
    split at he
    next product heq =>
      rw [getProduct_set_orderItems] at heq
      rcases List.mem_cons.mp he with hhead | htail
      · subst hhead
        show (getProduct s item.productId).isSome = true
        rw [heq]; rfl
      · have := ih _ _ _ htail
        rwa [stockAfterItem_isSome, getProduct_set_orderItems] at this
    next heq =>
      have := ih _ _ _ he
      rwa [getProduct_set_orderItems] at this

theorem processItems_isSome (oid : String) (items : List InsertOrderItem) :
    ∀ (ids : List String) (s : Store) (pid : String),
      (getProduct (processItems oid items ids s).2 pid).isSome =
        (getProduct s pid).isSome := by
  induction items with
  | nil => intro ids s pid; rfl
  | cons item rest ih =>
    intro ids s pid
    simp only [processItems]
    split
    next product heq =>
      rw [ih, stockAfterItem_isSome, getProduct_set_orderItems]
    next heq =>
      rw [ih, getProduct_set_orderItems]

theorem applyDec_type (prod : Product) (q : Int) :
    (applyDec prod q).type = prod.type := by
  unfold applyDec
  split
  · split <;> rfl
  · rfl

theorem applyDec_stock (prod : Product) (q : Int) :
    (applyDec prod q).stock =
      if prod.type = "physical" then prod.stock.map (fun st => st - q)
      else prod.stock := by
  unfold applyDec
  split
  · cases hst : prod.stock <;> simp [hst]
  · rfl

theorem createOrder_orders (s : Store) (order : InsertOrder)
    (items : List InsertOrderItem) (newOrderId : String) (itemIds : List String)
    (now : Nat) :
    (createOrder s order items newOrderId itemIds now).2.orders =
      s.orders ++ [(createOrder s order items newOrderId itemIds now).1.order] := by
  unfold createOrder
  dsimp only
  rw [processItems_orders]

theorem createOrder_stock (s : Store) (order : InsertOrder)
    (items : List InsertOrderItem) (newOrderId : String) (itemIds : List String)
    (now : Nat) (pid : String) (prod : Product)
    (h : getProduct s pid = some prod) :
    getProduct (createOrder s order items newOrderId itemIds now).2 pid =
      some (applyDec prod (totalQty items pid)) := by
  unfold createOrder
  dsimp only
  refine processItems_stock _ _ _ _ _ _ ?_
  rw [getProduct_set_orders]
  exact h

theorem resetPassword_absent (s : Store) (token newPassword : String) (now : Nat)
    (h : ∀ t ∈ s.tokens, (t.token == token) = false) :
    resetPassword s token newPassword now = (false, s) := by
  have hv : validatePasswordRecoveryToken s token now = (none, s) := by
    unfold validatePasswordRecoveryToken
    rw [List.find?_eq_none.mpr (fun t ht => by rw [h t ht]; exact Bool.false_ne_true)]
  unfold resetPassword
  split
  · rfl
  · rw [hv]

/-! Concrete fixtures used by witnesses and counterexamples. -/

/-- A physical catalog product with stock 12. -/
def wPhysical : Product :=
  { id := "p1", name := "Kit Estimulacion", description := "d", price := "18500",
    imageUrl := "u1", type := "physical", ageRange := "3-8", category := "c1",
    stock := some 12, isActive := true }

/-- A digital catalog product with no stock value. -/
def wDigital : Product :=
  { id := "p2", name := "Plataforma Digital", description := "d", price := "12900",
    imageUrl := "u2", type := "digital", ageRange := "5-10", category := "c2",
    stock := none, isActive := true }

/-- A store holding the two fixture products and nothing else. -/
def wStore : Store :=
  { users := [], products := [wPhysical, wDigital], orders := [], orderItems := [],
    tokens := [] }

/-- A create-order payload without a caller-supplied status. -/
def wInsertOrder : InsertOrder :=
  { total := "49900", status := none, customerName := "Ana",
    customerEmail := "ana@mail.test", customerPhone := "111",
    shippingAddress := "Calle 1" }

/-- Two valid request lines: two units of the physical product, one of the
digital product. -/
def wItems : List InsertOrderItem :=
  [ { orderId := "t", productId := "p1", quantity := 2, price := "18500" },
    { orderId := "t", productId := "p2", quantity := 1, price := "12900" } ]

/-! Claim theorems. -/

/-- Claim C1 (code bug): evaluating `createOrder` on a request whose single
line references a nonexistent product shows the call completing normally
while persisting the order header and an orphan order-item row: the store
state after the call differs from the state before it, so the operation is
not atomic in the claimed sense. -/
theorem createOrder_missing_product_partial_state :
    ((createOrder wStore wInsertOrder
        [{ orderId := "t", productId := "p-missing", quantity := 1, price := "5" }]
        "o1" ["i1"] 0).2.orders.length = 1) ∧
    ((createOrder wStore wInsertOrder
        [{ orderId := "t", productId := "p-missing", quantity := 1, price := "5" }]
        "o1" ["i1"] 0).2.orderItems.length = 1) ∧
    ((createOrder wStore wInsertOrder
        [{ orderId := "t", productId := "p-missing", quantity := 1, price := "5" }]
        "o1" ["i1"] 0).1.items = []) ∧
    ((createOrder wStore wInsertOrder
        [{ orderId := "t", productId := "p-missing", quantity := 1, price := "5" }]
        "o1" ["i1"] 0).2.products = wStore.products) := by
  refine ⟨?_, ?_, ?_, ?_⟩ <;> decide

/-- Claim C2: a create-order request whose lines all resolve to existing
products and stay within the available stock yields an order with exactly as
many items as requested lines, and leaves every physical product with a
numeric stock holding its prior stock minus the total quantity requested for
it. -/
theorem createOrder_valid_request (s : Store) (order : InsertOrder)
    (items : List InsertOrderItem) (newOrderId : String) (itemIds : List String)
    (now : Nat)
    (hres : ∀ item ∈ items, (getProduct s item.productId).isSome = true)
    (hstock : ∀ item ∈ items, stockOK s items item.productId = true) :
    ((createOrder s order items newOrderId itemIds now).1.items.length
        = items.length) ∧
    (∀ pid prod st, getProduct s pid = some prod → prod.type = "physical" →
      prod.stock = some st →
      ∃ prod',
        getProduct (createOrder s order items newOrderId itemIds now).2 pid
          = some prod' ∧
        prod'.stock = some (st - totalQty items pid)) := by
  constructor
  · unfold createOrder
    dsimp only
    rw [processItems_length]
    simp only [getProduct_set_orders]
    rw [List.filter_eq_self.mpr (fun a ha => hres a ha)]
  · intro pid prod st h hty hst
    refine ⟨applyDec prod (totalQty items pid),
      createOrder_stock s order items newOrderId itemIds now pid prod h, ?_⟩
    rw [applyDec_stock, if_pos hty, hst]
    rfl

/-- Concrete instantiation of `createOrder_valid_request` on the fixture
store and request. -/
theorem createOrder_valid_request_witness :
    (∀ item ∈ wItems, (getProduct wStore item.productId).isSome = true) ∧
    (∀ item ∈ wItems, stockOK wStore wItems item.productId = true) ∧
    (((createOrder wStore wInsertOrder wItems "o1" ["i1", "i2"] 0).1.items.length
        = wItems.length) ∧
     (∀ pid prod st, getProduct wStore pid = some prod →
        prod.type = "physical" → prod.stock = some st →
        ∃ prod',
          getProduct (createOrder wStore wInsertOrder wItems "o1" ["i1", "i2"] 0).2 pid
            = some prod' ∧
          prod'.stock = some (st - totalQty wItems pid))) :=
  ⟨by decide, by decide,
    createOrder_valid_request wStore wInsertOrder wItems "o1" ["i1", "i2"] 0
      (by decide) (by decide)⟩

/-- Claim C3: a request line whose product id resolves to no product is
silently dropped: the call still completes and persists the order header, the
returned order contains no item for that id, the returned item count is the
number of resolvable lines, and no product row for that id appears or
changes. -/
theorem createOrder_silently_drops_unresolved (s : Store) (order : InsertOrder)
    (items : List InsertOrderItem) (newOrderId : String) (itemIds : List String)
    (now : Nat) (badPid : String) (hbad : getProduct s badPid = none) :
    ((createOrder s order items newOrderId itemIds now).2.orders =
      s.orders ++ [(createOrder s order items newOrderId itemIds now).1.order]) ∧
    (∀ e ∈ (createOrder s order items newOrderId itemIds now).1.items,
      e.item.productId ≠ badPid) ∧
    ((createOrder s order items newOrderId itemIds now).1.items.length =
      (items.filter (fun i => (getProduct s i.productId).isSome)).length) ∧
    (getProduct (createOrder s order items newOrderId itemIds now).2 badPid
      = none) := by
  unfold createOrder
  dsimp only
  refine ⟨?_, ?_, ?_, ?_⟩
  · rw [processItems_orders]
  · intro e he hc
    have hres := processItems_resolvable _ _ _ _ _ he
    rw [getProduct_set_orders, hc, hbad] at hres
    exact Bool.false_ne_true hres
  · rw [processItems_length]
    simp only [getProduct_set_orders]
  · rw [← Option.not_isSome_iff_eq_none, processItems_isSome,
      getProduct_set_orders, hbad]
    simp

/-- Request lines for the silent-drop witness: one resolvable line and one
line referencing a missing product. -/
def w3Items : List InsertOrderItem :=
  [ { orderId := "t", productId := "p1", quantity := 2, price := "18500" },
    { orderId := "t", productId := "p-missing", quantity := 3, price := "9" } ]

/-- Concrete instantiation of `createOrder_silently_drops_unresolved` on the
fixture store. -/
theorem createOrder_silently_drops_unresolved_witness :
    (getProduct wStore "p-missing" = none) ∧
    (((createOrder wStore wInsertOrder w3Items "o1" ["i1", "i2"] 0).2.orders =
      wStore.orders ++
        [(createOrder wStore wInsertOrder w3Items "o1" ["i1", "i2"] 0).1.order]) ∧
    (∀ e ∈ (createOrder wStore wInsertOrder w3Items "o1" ["i1", "i2"] 0).1.items,
      e.item.productId ≠ "p-missing") ∧
    ((createOrder wStore wInsertOrder w3Items "o1" ["i1", "i2"] 0).1.items.length =
      (w3Items.filter (fun i => (getProduct wStore i.productId).isSome)).length) ∧
    (getProduct (createOrder wStore wInsertOrder w3Items "o1" ["i1", "i2"] 0).2
      "p-missing" = none)) :=
  ⟨by decide,
    createOrder_silently_drops_unresolved wStore wInsertOrder w3Items
      "o1" ["i1", "i2"] 0 "p-missing" (by decide)⟩

/-- Claim C4 counterexample: the fixture product's catalog price is
`"18500"`, the caller sends price `"1"` for it, and the persisted order item
carries `"1"`, not the catalog price, so the frozen price is not the current
product price. -/
theorem orderItem_price_not_catalog_cex :
    ((createOrder wStore wInsertOrder
        [{ orderId := "t", productId := "p1", quantity := 1, price := "1" }]
        "o1" ["i1"] 0).2.orderItems.map OrderItem.price = ["1"]) ∧
    ((getProduct wStore "p1").map Product.price = some "18500") ∧
    ("1" : String) ≠ "18500" := by
  refine ⟨?_, ?_, ?_⟩ <;> decide

/-- Claim C4 amended: the order-item rows persisted by `createOrder` are
exactly one row per requested line carrying the caller-supplied quantity and
price verbatim (`buildItems`); the engine never substitutes the product's
catalog price. -/
theorem createOrder_persists_caller_price (s : Store) (order : InsertOrder)
    (items : List InsertOrderItem) (newOrderId : String) (itemIds : List String)
    (now : Nat) :
    (createOrder s order items newOrderId itemIds now).2.orderItems =
      s.orderItems ++ buildItems newOrderId items itemIds := by
  unfold createOrder
  dsimp only
  rw [processItems_orderItems]

/-- Claim C5 counterexample: a caller-supplied status `"shipped"` is persisted
verbatim by `createOrder`, so not every order created by it starts as
`"pending"`. -/
theorem createOrder_status_not_pending_cex :
    ((createOrder wStore
        { wInsertOrder with status := some "shipped" } [] "o1" [] 0).2.orders.map
          Order.status = ["shipped"]) ∧
    ("shipped" : String) ≠ "pending" := by
  refine ⟨?_, ?_⟩ <;> decide

/-- Claim C5 amended: the order persisted by `createOrder` carries the
caller-supplied status when one is present and the column default `"pending"`
otherwise, and its total is the caller-supplied total, persisted without any
recomputation; the order header is appended to the store as returned. -/
theorem createOrder_status_and_total (s : Store) (order : InsertOrder)
    (items : List InsertOrderItem) (newOrderId : String) (itemIds : List String)
    (now : Nat) :
    ((createOrder s order items newOrderId itemIds now).1.order.status =
      order.status.getD "pending") ∧
    ((createOrder s order items newOrderId itemIds now).1.order.total =
      order.total) ∧
    ((createOrder s order items newOrderId itemIds now).2.orders =
      s.orders ++ [(createOrder s order items newOrderId itemIds now).1.order]) :=
  ⟨rfl, rfl, createOrder_orders s order items newOrderId itemIds now⟩

/-- Claim C6: during order creation every existing product keeps its type, a
physical product with a numeric stock ends with its prior stock minus the
total requested quantity (an unguarded integer subtraction, free to go
negative), and any product without a numeric stock or with a non-physical
type is never decremented. -/
theorem createOrder_stock_decrement_exact (s : Store) (order : InsertOrder)
    (items : List InsertOrderItem) (newOrderId : String) (itemIds : List String)
    (now : Nat) (pid : String) (prod : Product)
    (h : getProduct s pid = some prod) :
    ∃ prod',
      getProduct (createOrder s order items newOrderId itemIds now).2 pid
        = some prod' ∧
      prod'.type = prod.type ∧
      prod'.stock = (if prod.type = "physical"
        then prod.stock.map (fun st => st - totalQty items pid)
        else prod.stock) :=
  ⟨applyDec prod (totalQty items pid),
    createOrder_stock s order items newOrderId itemIds now pid prod h,
    applyDec_type _ _, applyDec_stock _ _⟩

/-- A physical product with a single unit in stock, used to exhibit the
unguarded decrement. -/
def w6Phys : Product :=
  { id := "p1", name := "Set Terapia", description := "d", price := "35800",
    imageUrl := "u", type := "physical", ageRange := "4-12", category := "c",
    stock := some 1, isActive := true }

/-- A store holding the one-unit physical product and the digital product. -/
def w6Store : Store :=
  { users := [], products := [w6Phys, wDigital], orders := [], orderItems := [],
    tokens := [] }

/-- Request lines asking for five units of the one-unit physical product and
three of the stockless digital product. -/
def w6Items : List InsertOrderItem :=
  [ { orderId := "t", productId := "p1", quantity := 5, price := "35800" },
    { orderId := "t", productId := "p2", quantity := 3, price := "12900" } ]

/-- Concrete instantiation of `createOrder_stock_decrement_exact`: the
physical product's stock goes from 1 to -4 (no guard against negative stock)
and the digital product's stock stays absent. -/
theorem createOrder_stock_decrement_exact_witness :
    (getProduct w6Store "p1" = some w6Phys) ∧
    (∃ prod',
      getProduct (createOrder w6Store wInsertOrder w6Items "o1" ["i1", "i2"] 0).2
        "p1" = some prod' ∧
      prod'.type = w6Phys.type ∧
      prod'.stock = (if w6Phys.type = "physical"
        then w6Phys.stock.map (fun st => st - totalQty w6Items "p1")
        else w6Phys.stock)) ∧
    (w6Phys.stock.map (fun st => st - totalQty w6Items "p1") = some (-4)) ∧
    (getProduct w6Store "p2" = some wDigital) ∧
    (∃ prod',
      getProduct (createOrder w6Store wInsertOrder w6Items "o1" ["i1", "i2"] 0).2
        "p2" = some prod' ∧
      prod'.type = wDigital.type ∧
      prod'.stock = (if wDigital.type = "physical"
        then wDigital.stock.map (fun st => st - totalQty w6Items "p2")
        else wDigital.stock)) :=
  ⟨by decide,
    createOrder_stock_decrement_exact w6Store wInsertOrder w6Items "o1"
      ["i1", "i2"] 0 "p1" w6Phys (by decide),
    by decide, by decide,
    createOrder_stock_decrement_exact w6Store wInsertOrder w6Items "o1"
      ["i1", "i2"] 0 "p2" wDigital (by decide)⟩

/-- Claim C7: if no order row carries the given id, `updateOrderStatus`
returns not-found and leaves the store untouched; if some row does, the
status — any string, with no validation or transition check — replaces that
row's status unconditionally and the updated row is returned. -/
theorem updateOrderStatus_contract (s : Store) (id status : String) :
    ((∀ o ∈ s.orders, o.id ≠ id) →
      updateOrderStatus s id status = (none, s)) ∧
    (∀ ord ∈ s.orders, ord.id = id →
      ∃ o', (updateOrderStatus s id status).1 = some o' ∧
        o'.id = id ∧ o'.status = status ∧
        (updateOrderStatus s id status).2 =
          { s with orders := s.orders.map (fun o =>
              if o.id == id then { o with status := status } else o) }) := by
  constructor
  · intro h
    unfold updateOrderStatus
    rw [List.find?_eq_none.mpr (fun o ho => by simpa using h o ho)]
  · intro ord hmem hid
    cases hfind : s.orders.find? (fun o => o.id == id) with
    | none => exact absurd (List.find?_eq_none.mp hfind ord hmem) (by simp [hid])
    | some o0 =>
      have ho0 : (o0.id == id) = true := by simpa using List.find?_some hfind
      have hres : updateOrderStatus s id status =
          ((s.orders.map (fun o =>
              if o.id == id then { o with status := status } else o)).find?
            (fun o => o.id == id),
           { s with orders := s.orders.map (fun o =>
              if o.id == id then { o with status := status } else o) }) := by
        unfold updateOrderStatus
        rw [hfind]
      refine ⟨{ o0 with status := status }, ?_, by simpa using ho0, rfl,
        by rw [hres]⟩
      rw [hres]
      try dsimp only
      rw [find_map_pres _ _
        (fun a => by by_cases hc : (a.id == id) = true <;> simp [hc]), hfind,
        Option.map_some']
      try dsimp only
      rw [if_pos ho0]

/-- An order sitting in the terminal `delivered` state. -/
def w7Order : Order :=
  { id := "o1", userId := some "u1", total := "10", status := "delivered",
    customerName := "n", customerEmail := "e", customerPhone := "p",
    shippingAddress := "a", createdAt := 0 }

/-- A store holding only the delivered order. -/
def w7Store : Store :=
  { users := [], products := [], orders := [w7Order], orderItems := [],
    tokens := [] }

/-- Concrete instantiation of `updateOrderStatus_contract`: an arbitrary
non-enumerated status string and a backward `delivered` to `pending`
transition are both accepted, and a missing id returns not-found unchanged. -/
theorem updateOrderStatus_contract_witness :
    (w7Order ∈ w7Store.orders ∧ w7Order.id = "o1") ∧
    (∃ o', (updateOrderStatus w7Store "o1" "garbage-status").1 = some o' ∧
      o'.id = "o1" ∧ o'.status = "garbage-status" ∧
      (updateOrderStatus w7Store "o1" "garbage-status").2 =
        { w7Store with orders := w7Store.orders.map (fun o =>
            if o.id == "o1" then { o with status := "garbage-status" } else o) }) ∧
    (∃ o', (updateOrderStatus w7Store "o1" "pending").1 = some o' ∧
      o'.id = "o1" ∧ o'.status = "pending" ∧
      (updateOrderStatus w7Store "o1" "pending").2 =
        { w7Store with orders := w7Store.orders.map (fun o =>
            if o.id == "o1" then { o with status := "pending" } else o) }) ∧
    (updateOrderStatus w7Store "o2" "x" = (none, w7Store)) :=
  ⟨⟨by decide, by decide⟩,
    (updateOrderStatus_contract w7Store "o1" "garbage-status").2 w7Order
      (by decide) (by decide),
    (updateOrderStatus_contract w7Store "o1" "pending").2 w7Order
      (by decide) (by decide),
    (updateOrderStatus_contract w7Store "o2" "x").1 (by decide)⟩

/-- Claim C8: a reset request with a new password shorter than the handler's
six-character minimum fails with the store untouched (the token stays live);
for a well-formed new password, a reset with a token absent from the store
fails and changes nothing; with an expired token it fails and removes the
token; with a live token it succeeds, updates the owning user's password,
removes the token, and any second reset with the same token fails and changes
nothing; minting a token stores it with a one-hour expiry. -/
theorem passwordReset_token_single_use (s : Store) (token newPassword : String)
    (now : Nat) (hlen : 6 ≤ newPassword.length) :
    (∀ pw : String, pw.length < 6 →
      resetPassword s token pw now = (false, s)) ∧
    ((∀ t ∈ s.tokens, (t.token == token) = false) →
      resetPassword s token newPassword now = (false, s)) ∧
    (∀ rt, s.tokens.find? (fun t => t.token == token) = some rt →
      (rt.expiresAt < now →
        resetPassword s token newPassword now =
          (false, deletePasswordRecoveryToken s token) ∧
        ∀ t ∈ (deletePasswordRecoveryToken s token).tokens,
          (t.token == token) = false) ∧
      (¬ rt.expiresAt < now →
        ((resetPassword s token newPassword now).1 = true) ∧
        (∀ t ∈ (resetPassword s token newPassword now).2.tokens,
          (t.token == token) = false) ∧
        (∀ u ∈ (resetPassword s token newPassword now).2.users,
          u.id = rt.userId → u.password = newPassword) ∧
        (∀ pw2 now2,
          resetPassword (resetPassword s token newPassword now).2 token pw2 now2
            = (false, (resetPassword s token newPassword now).2)))) ∧
    (∀ userId newId mintNow,
      (createPasswordRecoveryToken s userId token newId mintNow).tokens =
        s.tokens ++ [{ id := newId, userId := userId, token := token,
                       expiresAt := mintNow + 60 * 60 * 1000,
                       createdAt := mintNow }]) := by
  have hns : ¬ newPassword.length < 6 := by omega
  refine ⟨fun pw hpw => by unfold resetPassword; rw [if_pos hpw],
    resetPassword_absent s token newPassword now, ?_, fun _ _ _ => rfl⟩
  intro rt hfind
  have hv_exp : rt.expiresAt < now →
      validatePasswordRecoveryToken s token now =
        (none, deletePasswordRecoveryToken s token) := by
    intro hexp
    unfold validatePasswordRecoveryToken
    rw [hfind]
    dsimp only
    rw [if_pos hexp]
  have hv_ok : ¬ rt.expiresAt < now →
      validatePasswordRecoveryToken s token now = (some rt.userId, s) := by
    intro hexp
    unfold validatePasswordRecoveryToken
    rw [hfind]
    dsimp only
    rw [if_neg hexp]
  constructor
  · intro hexp
    constructor
    · unfold resetPassword
      rw [if_neg hns, hv_exp hexp]
    · intro t ht
      have hm := List.mem_filter.mp ht
      simpa using hm.2
  · intro hexp
    have hr : resetPassword s token newPassword now =
        (true, deletePasswordRecoveryToken
          (updateUserPassword s rt.userId newPassword) token) := by
      unfold resetPassword
      rw [if_neg hns, hv_ok hexp]
    refine ⟨by rw [hr], ?_, ?_, ?_⟩
    · intro t ht
      rw [hr] at ht
      have hm := List.mem_filter.mp ht
      simpa using hm.2
    · intro u hu huid
      rw [hr] at hu
      simp only [deletePasswordRecoveryToken, updateUserPassword] at hu
      rcases List.mem_map.mp hu with ⟨u0, hu0, rfl⟩
      by_cases hc : (u0.id == rt.userId) = true
      · simp [hc]
      · rw [if_neg hc] at huid ⊢
        exact absurd (by simp [huid]) hc
    · intro pw2 now2
      rw [hr]
      refine resetPassword_absent _ token pw2 now2 ?_
      intro t ht
      simp only [deletePasswordRecoveryToken] at ht
      have hm := List.mem_filter.mp ht
      simpa using hm.2

/-- A user whose password will be reset. -/
def w8User : User :=
  { id := "u1", email := "a@mail.test", password := "old", name := "N",
    role := "user", createdAt := 0 }

/-- A token for `w8User` minted at time 0, so expiring at 3 600 000 ms. -/
def w8Token : PasswordResetToken :=
  { id := "t1", userId := "u1", token := "tok1", expiresAt := 3600000,
    createdAt := 0 }

/-- A store holding the fixture user and token. -/
def w8Store : Store :=
  { users := [w8User], products := [], orders := [], orderItems := [],
    tokens := [w8Token] }

/-- Concrete instantiation of `passwordReset_token_single_use`: a 5-character
new password is rejected with the store (and the token) untouched; with the
6-character password "newpwd" the live token resets once and is rejected on
reuse; and at 3 700 000 ms (past the one-hour window, the spec's T+61min
example) the same token is rejected and removed. -/
theorem passwordReset_token_single_use_witness :
    ((6 ≤ ("newpwd" : String).length) ∧
     (("newpw" : String).length < 6) ∧
     (resetPassword w8Store "tok1" "newpw" 100 = (false, w8Store))) ∧
    ((w8Store.tokens.find? (fun t => t.token == "tok1") = some w8Token) ∧
     (¬ w8Token.expiresAt < 100) ∧
     ((resetPassword w8Store "tok1" "newpwd" 100).1 = true) ∧
     (∀ t ∈ (resetPassword w8Store "tok1" "newpwd" 100).2.tokens,
       (t.token == "tok1") = false) ∧
     (∀ u ∈ (resetPassword w8Store "tok1" "newpwd" 100).2.users,
       u.id = w8Token.userId → u.password = "newpwd") ∧
     (∀ pw2 now2,
       resetPassword (resetPassword w8Store "tok1" "newpwd" 100).2 "tok1" pw2 now2
         = (false, (resetPassword w8Store "tok1" "newpwd" 100).2))) ∧
    ((w8Token.expiresAt < 3700000) ∧
     (resetPassword w8Store "tok1" "otherpw" 3700000 =
       (false, deletePasswordRecoveryToken w8Store "tok1"))) := by
  have hshort := (passwordReset_token_single_use w8Store "tok1" "newpwd" 100
    (by decide)).1 "newpw" (by decide)
  have h := (passwordReset_token_single_use w8Store "tok1" "newpwd" 100
    (by decide)).2.2.1 w8Token (by decide)
  have hok := h.2 (by decide)
  have h2 := (passwordReset_token_single_use w8Store "tok1" "otherpw" 3700000
    (by decide)).2.2.1 w8Token (by decide)
  exact ⟨⟨by decide, by decide, hshort⟩,
    ⟨by decide, by decide, hok.1, hok.2.1, hok.2.2.1, hok.2.2.2⟩,
    ⟨by decide, (h2.1 (by decide)).1⟩⟩

/-- An empty store: no user resolves in it. -/
def w9Empty : Store :=
  { users := [], products := [], orders := [], orderItems := [], tokens := [] }

/-- Claim C9 counterexample: a well-formed bearer token whose user id resolves
to no user makes `authenticateAdmin` throw "Usuario no encontrado", which the
privileged routes map to HTTP 500 — not the 401 that `Unauthenticated` denotes
in the API contract. -/
theorem authenticateAdmin_unresolved_user_http500_cex :
    (authenticateAdmin w9Empty (some "Bearer mock_token_u1") =
      .err "Usuario no encontrado") ∧
    (errStatus "Usuario no encontrado" = 500) ∧
    ((500 : Nat) ≠ 401) := by
  refine ⟨?_, ?_, ?_⟩ <;> decide

/-- Claim C9 amended: the access gate rejects a missing or malformed bearer
credential as 401, rejects a resolvable non-admin user as 403, accepts exactly
admin users, performs no store mutation (it returns no store), but surfaces a
credential that resolves to no existing user as a 500 error, not as 401. -/
theorem authenticateAdmin_characterization (s : Store)
    (authHeader : Option String) :
    (authHeader = none →
      authenticateAdmin s authHeader = .err "No autorizado" ∧
      errStatus "No autorizado" = 401) ∧
    (∀ h, authHeader = some h →
      (strStartsWith h "Bearer " = false →
        authenticateAdmin s authHeader = .err "No autorizado" ∧
        errStatus "No autorizado" = 401) ∧
      (strStartsWith h "Bearer " = true →
        (strStartsWith (h.drop 7) "mock_token_" = false →
          authenticateAdmin s authHeader = .err "Token inválido" ∧
          errStatus "Token inválido" = 401) ∧
        (strStartsWith (h.drop 7) "mock_token_" = true →
          (getUser s ((h.drop 7).drop 11) = none →
            authenticateAdmin s authHeader = .err "Usuario no encontrado" ∧
            errStatus "Usuario no encontrado" = 500) ∧
          (∀ u, getUser s ((h.drop 7).drop 11) = some u →
            (u.role ≠ "admin" →
              authenticateAdmin s authHeader = .err "Acceso denegado" ∧
              errStatus "Acceso denegado" = 403) ∧
            (u.role = "admin" →
              authenticateAdmin s authHeader = .ok u))))) := by
  constructor
  · intro hn
    subst hn
    exact ⟨rfl, by decide⟩
  · intro h hh
    subst hh
    constructor
    · intro hb
      exact ⟨by simp [authenticateAdmin, hb], by decide⟩
    · intro hb
      constructor
      · intro hm
        exact ⟨by simp [authenticateAdmin, hb, hm], by decide⟩
      · intro hm
        constructor
        · intro hu
          exact ⟨by simp [authenticateAdmin, hb, hm, hu], by decide⟩
        · intro u hu
          constructor
          · intro hr
            exact ⟨by simp [authenticateAdmin, hb, hm, hu, hr], by decide⟩
          · intro hr
            simp [authenticateAdmin, hb, hm, hu, hr]

/-- An admin user resolvable from `mock_token_u1`. -/
def w9Admin : User :=
  { id := "u1", email := "admin@mail.test", password := "pw", name := "A",
    role := "admin", createdAt := 0 }

/-- A non-admin user resolvable from `mock_token_u2`. -/
def w9Plain : User :=
  { id := "u2", email := "user@mail.test", password := "pw", name := "B",
    role := "user", createdAt := 0 }

/-- A store holding the two gate-fixture users. -/
def w9Store : Store :=
  { users := [w9Admin, w9Plain], products := [], orders := [], orderItems := [],
    tokens := [] }

/-- Concrete instantiation of `authenticateAdmin_characterization`: the admin
token is accepted, the non-admin token gets 403, a missing header gets 401. -/
theorem authenticateAdmin_characterization_witness :
    (authenticateAdmin w9Store (some "Bearer mock_token_u1") = .ok w9Admin) ∧
    (authenticateAdmin w9Store (some "Bearer mock_token_u2") =
        .err "Acceso denegado" ∧
      errStatus "Acceso denegado" = 403) ∧
    (authenticateAdmin w9Store none = .err "No autorizado" ∧
      errStatus "No autorizado" = 401) := by
  have c1 := (authenticateAdmin_characterization w9Store
    (some "Bearer mock_token_u1")).2 "Bearer mock_token_u1" rfl
  have c1b := (c1.2 (by decide)).2 (by decide)
  have h1 := (c1b.2 w9Admin (by decide)).2 (by decide)
  have c2 := (authenticateAdmin_characterization w9Store
    (some "Bearer mock_token_u2")).2 "Bearer mock_token_u2" rfl
  have c2b := (c2.2 (by decide)).2 (by decide)
  have h2 := (c2b.2 w9Plain (by decide)).1 (by decide)
  have h3 := (authenticateAdmin_characterization w9Store none).1 rfl
  exact ⟨h1, h2, h3⟩

/-- Claim C10: the order persisted by `createOrder` carries no owning user
(`insertOrderSchema` omits `userId` and the route passes none), so listing any
user's orders after the call never surfaces the created order. -/
theorem createOrder_guest_invisible_to_user_orders (s : Store)
    (order : InsertOrder) (items : List InsertOrderItem) (newOrderId : String)
    (itemIds : List String) (now : Nat) (uid : String)
    (hfresh : ∀ o ∈ s.orders, o.id ≠ newOrderId) :
    ((createOrder s order items newOrderId itemIds now).1.order.userId = none) ∧
    (∀ ow ∈ getUserOrders (createOrder s order items newOrderId itemIds now).2
        uid, ow.order.id ≠ newOrderId) := by
  constructor
  · rfl
  · intro ow how hc
    unfold getUserOrders at how
    rcases List.mem_map.mp how with ⟨o, ho, hoe⟩
    have hmemf := List.mem_filter.mp ho
    have hoid : o.id = newOrderId := by
      rw [← hoe] at hc
      simpa using hc
    have ho2 := hmemf.1
    rw [createOrder_orders] at ho2
    rcases List.mem_append.mp ho2 with hold | hnew
    · exact hfresh o hold hoid
    · have hone : o = (createOrder s order items newOrderId itemIds now).1.order := by
        simpa using hnew
      have huid : (o.userId == some uid) = true := by simpa using hmemf.2
      rw [hone] at huid
      rw [show (createOrder s order items newOrderId itemIds now).1.order.userId
            = none from rfl] at huid
      exact absurd huid (by simp)

/-- An order already owned by user `u1`. -/
def w10Order : Order :=
  { id := "o0", userId := some "u1", total := "5", status := "pending",
    customerName := "n", customerEmail := "e", customerPhone := "p",
    shippingAddress := "a", createdAt := 0 }

/-- A store with one `u1`-owned order and one product. -/
def w10Store : Store :=
  { users := [], products := [wPhysical], orders := [w10Order],
    orderItems := [{ id := "i0", orderId := "o0", productId := "p1",
                     quantity := 1, price := "18500" }],
    tokens := [] }

/-- Concrete instantiation of `createOrder_guest_invisible_to_user_orders`:
the guest order `o1` never shows up in `u1`'s order list. -/
theorem createOrder_guest_invisible_witness :
    (∀ o ∈ w10Store.orders, o.id ≠ "o1") ∧
    (((createOrder w10Store wInsertOrder wItems "o1" ["i1", "i2"] 0).1.order.userId
        = none) ∧
     (∀ ow ∈ getUserOrders
        (createOrder w10Store wInsertOrder wItems "o1" ["i1", "i2"] 0).2 "u1",
       ow.order.id ≠ "o1")) :=
  ⟨by decide,
    createOrder_guest_invisible_to_user_orders w10Store wInsertOrder wItems
      "o1" ["i1", "i2"] 0 "u1" (by decide)⟩

end Shop
